import Mathlib

/-!
Verification of the Edgeberry python SDK example
(`examples/python-sdk/edgeberry/edgeberry.py` and
`examples/python-sdk/edgeberry/edgeberry_cloudconnect.py`).

The SDK wraps a D-Bus system bus: each class constructor connects to the
bus and resolves a named service inside a `try`/`except` block, and each
public method builds a small dictionary, serializes it with `json.dumps`,
and invokes one remote D-Bus method, again inside `try`/`except` that
prints the error and returns `None`.

The embedding models python strings as lists of Unicode code points
(`List Nat`), python exceptions and fallible evaluation explicitly
(`PyExc`, `PyRes`), and the D-Bus world as an environment record
(`DBusEnv`) saying whether the bus / services are reachable and what the
remote methods return.  `json.dumps` is embedded faithfully for the
dictionaries the SDK builds, including `ensure_ascii` escaping and the
default `", "` / `": "` separators; a JSON-compatible string scanner
(modelled on python's `json.decoder.py_scanstring`) is used for the
round-trip properties.
-/

/-- Code points of a Lean string, used to write concrete python strings. -/
def strCodes (s : String) : List Nat := s.data.map Char.toNat

/-- A python exception, abstracted to the kinds that can occur in the SDK:
bus connection failure, service resolution failure, missing attribute
(`self.edgeberry_core_service` never assigned), `json.dumps` TypeError,
and a failure raised by the remote call itself. -/
inductive PyExc where
  | busErr
  | getErr
  | attrErr
  | typeErr
  | remoteErr
deriving DecidableEq, Repr

/-- Result of evaluating a python expression: a value, or a raised exception. -/
inductive PyRes (α : Type) where
  | ok (a : α)
  | exc (e : PyExc)
deriving DecidableEq, Repr

/-- A python value passed as a method argument: a string, or some value
`json.dumps` cannot serialize. -/
inductive PyVal where
  | pstr (s : List Nat)
  | unserializable
deriving DecidableEq, Repr

/-- Rendering of `str(e)` for the log lines; the exact text of python
exception messages is environment specific, so it is modelled by a fixed
description per exception kind. -/
def pyExcStr : PyExc → String
  | .busErr => "bus connection error"
  | .getErr => "service resolution error"
  | .attrErr => "attribute error"
  | .typeErr => "type error"
  | .remoteErr => "remote call error"

/-- The D-Bus world: whether `SystemBus()` succeeds, whether
`bus.get("io.edgeberry.Core")` and `bus.get("io.edgeberry.CloudConnect")`
succeed, and the behaviour of each remote method (method name and
serialized string argument to the python-level result, where `none`
models the remote legitimately returning `None`). -/
structure DBusEnv where
  busOk : Bool
  coreOk : Bool
  cloudConnectOk : Bool
  callCore : String → List Nat → PyRes (Option Nat)
  callCloudConnect : String → List Nat → PyRes (Option Nat)

/-- The attribute state of a constructed instance: whether `self.bus` and
the service handle attribute were assigned. -/
structure InstState where
  hasBus : Bool
  hasService : Bool
deriving DecidableEq, Repr

/-- Everything a method call produces: the value returned to the caller,
the remote invocations performed (method name and argument), and the
lines printed to stdout. -/
structure MethodOut where
  ret : Option Nat
  calls : List (String × List Nat)
  log : List String
deriving DecidableEq, Repr

/-! ### `json.dumps` (default arguments, hence `ensure_ascii=True`,
separators `", "` and `": "`, no `sort_keys`) -/

/-- Lowercase hex digit code point, as produced by python's `'%04x'`. -/
def hexDigit (n : Nat) : Nat := if n < 10 then 48 + n else 87 + n

/-- Four lowercase hex digits of `n`, as in python's `'\u%04x' % n`. -/
def hex4 (n : Nat) : List Nat :=
  [hexDigit (n / 4096 % 16), hexDigit (n / 256 % 16), hexDigit (n / 16 % 16), hexDigit (n % 16)]

/-- Escaping of one character by `json.encoder.py_encode_basestring_ascii`:
`"` and `\` get a backslash escape, the five named control characters get
their short escapes, other characters below `0x20` and all characters
above `0x7e` get `\uXXXX` escapes (a surrogate pair above `0xffff`), and
the printable ASCII range passes through unchanged. -/
def escChar (c : Nat) : List Nat :=
  if c = 34 then [92, 34]
  else if c = 92 then [92, 92]
  else if c = 8 then [92, 98]
  else if c = 9 then [92, 116]
  else if c = 10 then [92, 110]
  else if c = 12 then [92, 102]
  else if c = 13 then [92, 114]
  else if c < 32 then 92 :: 117 :: hex4 c
  else if c ≤ 126 then [c]
  else if c < 65536 then 92 :: 117 :: hex4 c
  else (92 :: 117 :: hex4 (55296 + (c - 65536) / 1024)) ++
       (92 :: 117 :: hex4 (56320 + (c - 65536) % 1024))

/-- JSON string literal for a python string: quote, escaped content, quote. -/
def encStr (s : List Nat) : List Nat := 34 :: (s.map escChar).flatten ++ [34]

/-- Serialization of one python value: strings become string literals,
unserializable values raise `TypeError`. -/
def dumpVal : PyVal → PyRes (List Nat)
  | .pstr s => .ok (encStr s)
  | .unserializable => .exc .typeErr

/-- Serialization of the dictionary entries, in insertion order, stopping
at the first value that raises; each entry is `"key": value` with the
default key separator `": "`. -/
def dumpEntryList : List (List Nat × PyVal) → PyRes (List (List Nat))
  | [] => .ok []
  | (k, v) :: rest =>
    match dumpVal v with
    | .exc e => .exc e
    | .ok ev =>
      match dumpEntryList rest with
      | .exc e => .exc e
      | .ok evs => .ok ((encStr k ++ [58, 32] ++ ev) :: evs)

/-- Joining the serialized entries with the default item separator `", "`. -/
def dumpEntriesJoin : List (List Nat) → List Nat
  | [] => []
  | [e] => e
  | e :: rest => e ++ [44, 32] ++ dumpEntriesJoin rest

/-- `json.dumps` on a python dictionary with string keys. -/
def json_dumps (d : List (List Nat × PyVal)) : PyRes (List Nat) :=
  match dumpEntryList d with
  | .exc e => .exc e
  | .ok es => .ok (123 :: dumpEntriesJoin es ++ [125])

/-! ### The dictionaries the SDK builds -/

/-- The dictionary built by `Edgeberry.set_application_info`:
`{"name": name, "version": version, "description": description}`. -/
def application_info_dict (name version description : PyVal) : List (List Nat × PyVal) :=
  [(strCodes "name", name), (strCodes "version", version), (strCodes "description", description)]

/-- The dictionary built by `Edgeberry.set_status`:
`{"level": level, "message": message}`. -/
def status_dict (level message : PyVal) : List (List Nat × PyVal) :=
  [(strCodes "level", level), (strCodes "message", message)]

/-- The dictionary built by `EdgeberryCloudConnect.send_message`:
`{"message": message}`. -/
def message_dict (message : PyVal) : List (List Nat × PyVal) :=
  [(strCodes "message", message)]

/-! ### Constructors -/

/-- The statements inside the `try` of `Edgeberry.__init__`:
`SystemBus()` then `bus.get("io.edgeberry.Core")`. -/
def Edgeberry_init_try (env : DBusEnv) : PyRes InstState :=
  if env.busOk then
    if env.coreOk then .ok { hasBus := true, hasService := true }
    else .exc .getErr
  else .exc .busErr

/-- The attribute state left behind when the `try` body raises: `self.bus`
is assigned exactly when `SystemBus()` succeeded, and the service handle
attribute is never assigned. -/
def Edgeberry_partial_inst (env : DBusEnv) : InstState :=
  { hasBus := env.busOk, hasService := false }

/-- The line printed by the `except` clause of `Edgeberry.__init__`. -/
def edgeberry_init_log (e : PyExc) : String :=
  "Edgeberry: error connecting to Edgeberry D-Bus: " ++ pyExcStr e

/-- `Edgeberry.__init__`: the `try` body with the `except Exception`
handler that prints the error and returns, yielding the (possibly
partially initialized) instance. -/
def Edgeberry_init (env : DBusEnv) : PyRes (InstState × List String) :=
  match Edgeberry_init_try env with
  | .ok inst => .ok (inst, [])
  | .exc e => .ok (Edgeberry_partial_inst env, [edgeberry_init_log e])

/-- The statements inside the `try` of `EdgeberryCloudConnect.__init__`:
`SystemBus()` then `bus.get("io.edgeberry.CloudConnect")`. -/
def EdgeberryCloudConnect_init_try (env : DBusEnv) : PyRes InstState :=
  if env.busOk then
    if env.cloudConnectOk then .ok { hasBus := true, hasService := true }
    else .exc .getErr
  else .exc .busErr

/-- The line printed by the `except` clause of `EdgeberryCloudConnect.__init__`. -/
def cloudconnect_init_log (e : PyExc) : String :=
  "CloudConnect: error connecting to Edgeberry Cloud Connect D-Bus API: " ++ pyExcStr e

/-- `EdgeberryCloudConnect.__init__` with its `except Exception` handler. -/
def EdgeberryCloudConnect_init (env : DBusEnv) : PyRes (InstState × List String) :=
  match EdgeberryCloudConnect_init_try env with
  | .ok inst => .ok (inst, [])
  | .exc e => .ok (Edgeberry_partial_inst env, [cloudconnect_init_log e])

/-! ### Methods -/

/-- The `try` body of `Edgeberry.set_application_info`: build the
dictionary, `json.dumps` it, read `self.edgeberry_core_service` (an
`AttributeError` when construction failed to assign it), and invoke the
remote `SetApplicationInfo`.  Alongside the evaluation result it records
the remote invocations performed. -/
def set_application_info_try (env : DBusEnv) (inst : InstState)
    (name version description : PyVal) : PyRes (Option Nat) × List (String × List Nat) :=
  match json_dumps (application_info_dict name version description) with
  | .exc e => (.exc e, [])
  | .ok j =>
    if inst.hasService then
      match env.callCore "SetApplicationInfo" j with
      | .ok r => (.ok r, [("SetApplicationInfo", j)])
      | .exc e => (.exc e, [("SetApplicationInfo", j)])
    else (.exc .attrErr, [])

/-- The line printed by the `except` clauses of both
`Edgeberry.set_application_info` and `Edgeberry.set_status` (the source
uses the same text in both methods). -/
def edgeberry_status_error_log (e : PyExc) : String :=
  "Edgeberry: error setting status: " ++ pyExcStr e

/-- `Edgeberry.set_application_info` with its `except Exception` handler:
on any raise, print the error and return `None`. -/
def set_application_info (env : DBusEnv) (inst : InstState)
    (name version description : PyVal) : PyRes MethodOut :=
  match set_application_info_try env inst name version description with
  | (.ok r, cs) => .ok { ret := r, calls := cs, log := [] }
  | (.exc e, cs) => .ok { ret := none, calls := cs, log := [edgeberry_status_error_log e] }

/-- The `try` body of `Edgeberry.set_status`: build `{"level", "message"}`,
serialize, invoke the remote `SetApplicationStatus`. -/
def set_status_try (env : DBusEnv) (inst : InstState)
    (level message : PyVal) : PyRes (Option Nat) × List (String × List Nat) :=
  match json_dumps (status_dict level message) with
  | .exc e => (.exc e, [])
  | .ok j =>
    if inst.hasService then
      match env.callCore "SetApplicationStatus" j with
      | .ok r => (.ok r, [("SetApplicationStatus", j)])
      | .exc e => (.exc e, [("SetApplicationStatus", j)])
    else (.exc .attrErr, [])

/-- `Edgeberry.set_status` with its `except Exception` handler. -/
def set_status (env : DBusEnv) (inst : InstState)
    (level message : PyVal) : PyRes MethodOut :=
  match set_status_try env inst level message with
  | (.ok r, cs) => .ok { ret := r, calls := cs, log := [] }
  | (.exc e, cs) => .ok { ret := none, calls := cs, log := [edgeberry_status_error_log e] }

/-- The `try` body of `EdgeberryCloudConnect.send_message`: build
`{"message"}`, serialize, invoke the remote `SendMessage`. -/
def send_message_try (env : DBusEnv) (inst : InstState)
    (message : PyVal) : PyRes (Option Nat) × List (String × List Nat) :=
  match json_dumps (message_dict message) with
  | .exc e => (.exc e, [])
  | .ok j =>
    if inst.hasService then
      match env.callCloudConnect "SendMessage" j with
      | .ok r => (.ok r, [("SendMessage", j)])
      | .exc e => (.exc e, [("SendMessage", j)])
    else (.exc .attrErr, [])

/-- The line printed by the `except` clause of
`EdgeberryCloudConnect.send_message`. -/
def cloudconnect_send_error_log (e : PyExc) : String :=
  "CloudConnect: error sending message: " ++ pyExcStr e

/-- `EdgeberryCloudConnect.send_message` with its `except Exception` handler. -/
def send_message (env : DBusEnv) (inst : InstState)
    (message : PyVal) : PyRes MethodOut :=
  match send_message_try env inst message with
  | (.ok r, cs) => .ok { ret := r, calls := cs, log := [] }
  | (.exc e, cs) => .ok { ret := none, calls := cs, log := [cloudconnect_send_error_log e] }

/-- The serialized argument `set_application_info` sends for string
arguments, in closed form. -/
def application_info_json (n v d : List Nat) : List Nat :=
  123 :: (encStr (strCodes "name") ++ [58, 32] ++ encStr n ++ [44, 32] ++
          (encStr (strCodes "version") ++ [58, 32] ++ encStr v ++ [44, 32] ++
           (encStr (strCodes "description") ++ [58, 32] ++ encStr d))) ++ [125]

/-- The serialized argument `set_status` sends for string arguments. -/
def status_json (lv ms : List Nat) : List Nat :=
  123 :: (encStr (strCodes "level") ++ [58, 32] ++ encStr lv ++ [44, 32] ++
          (encStr (strCodes "message") ++ [58, 32] ++ encStr ms)) ++ [125]

/-- The serialized argument `send_message` sends for a string argument. -/
def message_json (m : List Nat) : List Nat :=
  123 :: (encStr (strCodes "message") ++ [58, 32] ++ encStr m) ++ [125]

/-! ### A JSON-compatible parser for the produced arguments

The string scanner follows python's `json.decoder.py_scanstring` (strict
mode): content runs until an unescaped quote, a backslash introduces the
usual short escapes or a `\uXXXX` escape, a `\uXXXX` high surrogate
immediately followed by a `\uXXXX` low surrogate is combined into one
code point, and raw control characters are rejected. -/

/-- Value of one hex digit code point (both cases accepted, as in python's
`int(s, 16)`). -/
def hexVal (c : Nat) : Option Nat :=
  if 48 ≤ c ∧ c ≤ 57 then some (c - 48)
  else if 97 ≤ c ∧ c ≤ 102 then some (c - 87)
  else if 65 ≤ c ∧ c ≤ 70 then some (c - 55)
  else none

/-- Value of a four-hex-digit escape body. -/
def hex4Val (a b c d : Nat) : Option Nat :=
  match hexVal a, hexVal b, hexVal c, hexVal d with
  | some x, some y, some z, some w => some (4096 * x + 256 * y + 16 * z + w)
  | _, _, _, _ => none

/-- Prepend a decoded character to a scanner result. -/
def consChar (c : Nat) : Option (List Nat × List Nat) → Option (List Nat × List Nat)
  | none => none
  | some (s, r) => some (c :: s, r)

/-- Decoding of the single-character escapes of python's `BACKSLASH`
table: `\"`, `\\`, `\/`, `\b`, `\f`, `\n`, `\r`, `\t`. -/
def escDecode1 (e : Nat) : Option Nat :=
  if e = 34 then some 34
  else if e = 92 then some 92
  else if e = 47 then some 47
  else if e = 98 then some 8
  else if e = 102 then some 12
  else if e = 110 then some 10
  else if e = 114 then some 13
  else if e = 116 then some 9
  else none

/-- Decoding of a `\uXXXX` escape body (the input starts right after the
`\u`): four hex digits; a high surrogate immediately followed by a
`\uXXXX` low surrogate is combined into one code point, as in
`py_scanstring`.  Returns the decoded code point and how many input
elements were consumed (4, or 10 for a combined surrogate pair). -/
def uEscape : List Nat → Option (Nat × Nat)
  | a :: b :: c :: d :: rest =>
    match hex4Val a b c d with
    | none => none
    | some n =>
      if 55296 ≤ n ∧ n ≤ 56319 then
        match rest with
        | x :: y :: a2 :: b2 :: c2 :: d2 :: _ =>
          if x = 92 ∧ y = 117 then
            match hex4Val a2 b2 c2 d2 with
            | none => none
            | some m =>
              if 56320 ≤ m ∧ m ≤ 57343 then
                some (65536 + (n - 55296) * 1024 + (m - 56320), 10)
              else some (n, 4)
          else some (n, 4)
        | _ => some (n, 4)
      else some (n, 4)
  | _ => none

/-- The scanner loop of `py_scanstring`, after the opening quote: returns
the decoded content and the remaining input after the closing quote.
Content runs until an unescaped quote; a backslash introduces a single
character escape or a `\uXXXX` escape; raw control characters are
rejected (strict mode). -/
def parseStrAux : List Nat → Option (List Nat × List Nat)
  | [] => none
  | c :: rest =>
    if c = 34 then some ([], rest)
    else if c = 92 then
      match rest with
      | [] => none
      | e :: rest2 =>
        if e = 117 then
          match uEscape rest2 with
          | none => none
          | some (n, k) => consChar n (parseStrAux (rest2.drop k))
        else
          match escDecode1 e with
          | none => none
          | some d => consChar d (parseStrAux rest2)
    else if c < 32 then none
    else consChar c (parseStrAux rest)
termination_by l => l.length
decreasing_by
  · simp only [List.length_cons, List.length_drop]
    omega
  · simp only [List.length_cons]
    omega
  · simp only [List.length_cons]
    omega

/-- Parse a JSON string literal: opening quote, then the scanner. -/
def parseJString (l : List Nat) : Option (List Nat × List Nat) :=
  match l with
  | 34 :: rest => parseStrAux rest
  | _ => none

/-- Expect a literal chunk and return the remaining input. -/
def parseLit : List Nat → List Nat → Option (List Nat)
  | [], l => some l
  | p :: ps, c :: cs => if p = c then parseLit ps cs else none
  | _ :: _, [] => none

/-- Parse one `"key": value` pair whose key must be the given string and
whose value is a JSON string literal; returns the decoded value and the
remaining input. -/
def parseKeyVal (key : List Nat) (l : List Nat) : Option (List Nat × List Nat) :=
  match parseJString l with
  | none => none
  | some (k, r1) =>
    if k = key then
      match parseLit [58, 32] r1 with
      | none => none
      | some r2 => parseJString r2
    else none

/-- Parse the full `SetApplicationInfo` argument object
`{"name": _, "version": _, "description": _}` and return the three
decoded field values. -/
def parseAppInfoArg (l : List Nat) : Option (List Nat × List Nat × List Nat) :=
  match parseLit [123] l with
  | none => none
  | some r0 =>
    match parseKeyVal (strCodes "name") r0 with
    | none => none
    | some (n, r1) =>
      match parseLit [44, 32] r1 with
      | none => none
      | some r2 =>
        match parseKeyVal (strCodes "version") r2 with
        | none => none
        | some (v, r3) =>
          match parseLit [44, 32] r3 with
          | none => none
          | some r4 =>
            match parseKeyVal (strCodes "description") r4 with
            | none => none
            | some (d, r5) =>
              match parseLit [125] r5 with
              | none => none
              | some r6 => if r6 = [] then some (n, v, d) else none

/-- Parse the full `SetApplicationStatus` argument object
`{"level": _, "message": _}`. -/
def parseStatusArg (l : List Nat) : Option (List Nat × List Nat) :=
  match parseLit [123] l with
  | none => none
  | some r0 =>
    match parseKeyVal (strCodes "level") r0 with
    | none => none
    | some (lv, r1) =>
      match parseLit [44, 32] r1 with
      | none => none
      | some r2 =>
        match parseKeyVal (strCodes "message") r2 with
        | none => none
        | some (ms, r3) =>
          match parseLit [125] r3 with
          | none => none
          | some r4 => if r4 = [] then some (lv, ms) else none

/-- Parse the full `SendMessage` argument object `{"message": _}`. -/
def parseMessageArg (l : List Nat) : Option (List Nat) :=
  match parseLit [123] l with
  | none => none
  | some r0 =>
    match parseKeyVal (strCodes "message") r0 with
    | none => none
    | some (m, r1) =>
      match parseLit [125] r1 with
      | none => none
      | some r2 => if r2 = [] then some m else none

/-- A code point is a Unicode scalar value (what a python `str` built from
text holds; surrogate code points are excluded). -/
def ValidScalar (c : Nat) : Prop := c < 55296 ∨ (57344 ≤ c ∧ c < 1114112)

/-- All code points of the string are Unicode scalar values. -/
def ValidStr (s : List Nat) : Prop := ∀ c ∈ s, ValidScalar c

instance (c : Nat) : Decidable (ValidScalar c) := by
  unfold ValidScalar; infer_instance

instance (s : List Nat) : Decidable (ValidStr s) := by
  unfold ValidStr; infer_instance

/-! ### Concrete environments and instances used in closed statements -/

/-- A fully reachable D-Bus world whose remote methods return a fixed value. -/
def envAllOk : DBusEnv :=
  { busOk := true, coreOk := true, cloudConnectOk := true,
    callCore := fun _ _ => .ok (some 0),
    callCloudConnect := fun _ _ => .ok (some 0) }

/-- A D-Bus world where the system bus itself is unreachable. -/
def envBusDown : DBusEnv :=
  { busOk := false, coreOk := false, cloudConnectOk := false,
    callCore := fun _ _ => .exc .remoteErr,
    callCloudConnect := fun _ _ => .exc .remoteErr }

/-- A D-Bus world where the bus is up but every remote method raises. -/
def envRemoteRaises : DBusEnv :=
  { busOk := true, coreOk := true, cloudConnectOk := true,
    callCore := fun _ _ => .exc .remoteErr,
    callCloudConnect := fun _ _ => .exc .remoteErr }

/-- A D-Bus world where every remote method legitimately returns python None. -/
def envRemoteNone : DBusEnv :=
  { busOk := true, coreOk := true, cloudConnectOk := true,
    callCore := fun _ _ => .ok none,
    callCloudConnect := fun _ _ => .ok none }

/-- A fully initialized instance: both attributes were assigned. -/
def instOk : InstState := { hasBus := true, hasService := true }

/-- An instance whose service handle attribute was never assigned. -/
def instNoService : InstState := { hasBus := true, hasService := false }

/-! ### Round-trip lemmas: the scanner inverts the escaper -/

theorem hexVal_hexDigit : ∀ d < 16, hexVal (hexDigit d) = some d := by decide

theorem hex4Val_hex4 (n : Nat) (h : n < 65536) :
    hex4Val (hexDigit (n / 4096 % 16)) (hexDigit (n / 256 % 16))
      (hexDigit (n / 16 % 16)) (hexDigit (n % 16)) = some n := by
  rw [hex4Val, hexVal_hexDigit _ (by omega), hexVal_hexDigit _ (by omega),
    hexVal_hexDigit _ (by omega), hexVal_hexDigit _ (by omega)]
  have hn : 4096 * (n / 4096 % 16) + 256 * (n / 256 % 16) + 16 * (n / 16 % 16) + n % 16 = n := by
    omega
  simp [hn]

theorem uEscape_hex4 (n : Nat) (h : n < 65536) (hns : ¬(55296 ≤ n ∧ n ≤ 56319))
    (rest : List Nat) : uEscape (hex4 n ++ rest) = some (n, 4) := by
  have h1 : (hex4 n ++ rest : List Nat) =
      hexDigit (n / 4096 % 16) :: hexDigit (n / 256 % 16) :: hexDigit (n / 16 % 16) ::
        hexDigit (n % 16) :: rest := rfl
  rw [h1, uEscape, hex4Val_hex4 n h]
  simp [hns]

theorem uEscape_surrogatePair (n : Nat) (h1 : 65536 ≤ n) (h2 : n < 1114112)
    (rest : List Nat) :
    uEscape (hex4 (55296 + (n - 65536) / 1024) ++
      92 :: 117 :: hex4 (56320 + (n - 65536) % 1024) ++ rest) = some (n, 10) := by
  have hhi : 55296 + (n - 65536) / 1024 < 65536 := by omega
  have hlo : 56320 + (n - 65536) % 1024 < 65536 := by omega
  have hsh : (hex4 (55296 + (n - 65536) / 1024) ++
      92 :: 117 :: hex4 (56320 + (n - 65536) % 1024) ++ rest : List Nat) =
      hexDigit ((55296 + (n - 65536) / 1024) / 4096 % 16) ::
      hexDigit ((55296 + (n - 65536) / 1024) / 256 % 16) ::
      hexDigit ((55296 + (n - 65536) / 1024) / 16 % 16) ::
      hexDigit ((55296 + (n - 65536) / 1024) % 16) ::
      92 :: 117 ::
      hexDigit ((56320 + (n - 65536) % 1024) / 4096 % 16) ::
      hexDigit ((56320 + (n - 65536) % 1024) / 256 % 16) ::
      hexDigit ((56320 + (n - 65536) % 1024) / 16 % 16) ::
      hexDigit ((56320 + (n - 65536) % 1024) % 16) :: rest := rfl
  have hc1 : 55296 ≤ 55296 + (n - 65536) / 1024 ∧ 55296 + (n - 65536) / 1024 ≤ 56319 := by
    omega
  have hc2 : 56320 ≤ 56320 + (n - 65536) % 1024 ∧ 56320 + (n - 65536) % 1024 ≤ 57343 := by
    omega
  have hcomb : 65536 + (55296 + (n - 65536) / 1024 - 55296) * 1024 +
      (56320 + (n - 65536) % 1024 - 56320) = n := by omega
  rw [hsh, uEscape, hex4Val_hex4 _ hhi]
  simp only [hc1, and_self, if_true, hex4Val_hex4 _ hlo, hc2, hcomb, if_pos trivial]

theorem parseStrAux_quote (rest : List Nat) : parseStrAux (34 :: rest) = some ([], rest) := by
  rw [parseStrAux.eq_def]
  norm_num

theorem parseStrAux_esc1 (e d : Nat) (he : e ≠ 117) (hd : escDecode1 e = some d)
    (rest : List Nat) : parseStrAux (92 :: e :: rest) = consChar d (parseStrAux rest) := by
  conv_lhs => rw [parseStrAux.eq_def]
  norm_num [if_neg he, hd]

theorem parseStrAux_u (tail : List Nat) :
    parseStrAux (92 :: 117 :: tail) =
      (match uEscape tail with
       | none => none
       | some (n, k) => consChar n (parseStrAux (tail.drop k))) := by
  conv_lhs => rw [parseStrAux.eq_def]
  norm_num

theorem parseStrAux_plain (c : Nat) (h34 : c ≠ 34) (h92 : c ≠ 92) (h32 : ¬c < 32)
    (rest : List Nat) : parseStrAux (c :: rest) = consChar c (parseStrAux rest) := by
  conv_lhs => rw [parseStrAux.eq_def]
  simp only [if_neg h34, if_neg h92, if_neg h32]

theorem parseStrAux_escChar (c : Nat) (hc : ValidScalar c) (rest : List Nat) :
    parseStrAux (escChar c ++ rest) = consChar c (parseStrAux rest) := by
  by_cases h34 : c = 34
  · subst h34
    rw [escChar, if_pos rfl, List.cons_append, List.cons_append, List.nil_append]
    exact parseStrAux_esc1 34 34 (by norm_num) rfl rest
  by_cases h92 : c = 92
  · subst h92
    rw [escChar, if_neg (by norm_num), if_pos rfl, List.cons_append, List.cons_append,
      List.nil_append]
    exact parseStrAux_esc1 92 92 (by norm_num) rfl rest
  by_cases h8 : c = 8
  · subst h8
    rw [escChar, if_neg (by norm_num), if_neg (by norm_num), if_pos rfl, List.cons_append,
      List.cons_append, List.nil_append]
    exact parseStrAux_esc1 98 8 (by norm_num) rfl rest
  by_cases h9 : c = 9
  · subst h9
    rw [escChar, if_neg (by norm_num), if_neg (by norm_num), if_neg (by norm_num), if_pos rfl,
      List.cons_append, List.cons_append, List.nil_append]
    exact parseStrAux_esc1 116 9 (by norm_num) rfl rest
  by_cases h10 : c = 10
  · subst h10
    rw [escChar, if_neg (by norm_num), if_neg (by norm_num), if_neg (by norm_num),
      if_neg (by norm_num), if_pos rfl, List.cons_append, List.cons_append, List.nil_append]
    exact parseStrAux_esc1 110 10 (by norm_num) rfl rest
  by_cases h12 : c = 12
  · subst h12
    rw [escChar, if_neg (by norm_num), if_neg (by norm_num), if_neg (by norm_num),
      if_neg (by norm_num), if_neg (by norm_num), if_pos rfl, List.cons_append,
      List.cons_append, List.nil_append]
    exact parseStrAux_esc1 102 12 (by norm_num) rfl rest
  by_cases h13 : c = 13
  · subst h13
    rw [escChar, if_neg (by norm_num), if_neg (by norm_num), if_neg (by norm_num),
      if_neg (by norm_num), if_neg (by norm_num), if_neg (by norm_num), if_pos rfl,
      List.cons_append, List.cons_append, List.nil_append]
    exact parseStrAux_esc1 114 13 (by norm_num) rfl rest
  by_cases h32 : c < 32
  · rw [escChar, if_neg h34, if_neg h92, if_neg h8, if_neg h9, if_neg h10, if_neg h12,
      if_neg h13, if_pos h32, List.cons_append, List.cons_append]
    rw [parseStrAux_u, uEscape_hex4 c (by omega) (by omega)]
    exact rfl
  by_cases h126 : c ≤ 126
  · rw [escChar, if_neg h34, if_neg h92, if_neg h8, if_neg h9, if_neg h10, if_neg h12,
      if_neg h13, if_neg h32, if_pos h126, List.cons_append, List.nil_append]
    exact parseStrAux_plain c h34 h92 h32 rest
  by_cases h65536 : c < 65536
  · have hns : ¬(55296 ≤ c ∧ c ≤ 56319) := by rcases hc with h | h <;> omega
    rw [escChar, if_neg h34, if_neg h92, if_neg h8, if_neg h9, if_neg h10, if_neg h12,
      if_neg h13, if_neg h32, if_neg h126, if_pos h65536, List.cons_append, List.cons_append]
    rw [parseStrAux_u, uEscape_hex4 c h65536 hns]
    exact rfl
  · have hcu : c < 1114112 := by rcases hc with h | h <;> omega
    rw [escChar, if_neg h34, if_neg h92, if_neg h8, if_neg h9, if_neg h10, if_neg h12,
      if_neg h13, if_neg h32, if_neg h126, if_neg h65536]
    rw [show (((92 :: 117 :: hex4 (55296 + (c - 65536) / 1024)) ++
        (92 :: 117 :: hex4 (56320 + (c - 65536) % 1024))) ++ rest : List Nat) =
        92 :: 117 :: (hex4 (55296 + (c - 65536) / 1024) ++
          92 :: 117 :: hex4 (56320 + (c - 65536) % 1024) ++ rest) from by
      simp [List.append_assoc]]
    rw [parseStrAux_u, uEscape_surrogatePair c (by omega) hcu]
    exact rfl

theorem parseStrAux_content (s : List Nat) (hs : ValidStr s) (rest : List Nat) :
    parseStrAux ((s.map escChar).flatten ++ 34 :: rest) = some (s, rest) := by
  induction s with
  | nil => simpa using parseStrAux_quote rest
  | cons c s ih =>
    have hc : ValidScalar c := hs c (List.mem_cons_self c s)
    have hs' : ValidStr s := fun x hx => hs x (List.mem_cons_of_mem c hx)
    simp only [List.map_cons, List.flatten_cons, List.append_assoc]
    rw [parseStrAux_escChar c hc, ih hs']
    rfl

theorem parseJString_encStr (s : List Nat) (hs : ValidStr s) (rest : List Nat) :
    parseJString (encStr s ++ rest) = some (s, rest) := by
  rw [encStr]
  show parseStrAux ((s.map escChar).flatten ++ [34] ++ rest) = some (s, rest)
  rw [List.append_assoc]
  exact parseStrAux_content s hs rest

theorem parseLit_append (p rest : List Nat) : parseLit p (p ++ rest) = some rest := by
  induction p with
  | nil => rfl
  | cons a p ih => simp [parseLit, ih]

theorem parseKeyVal_enc (key v rest : List Nat) (hkey : ValidStr key) (hv : ValidStr v) :
    parseKeyVal key (encStr key ++ 58 :: 32 :: (encStr v ++ rest)) = some (v, rest) := by
  rw [parseKeyVal, parseJString_encStr key hkey]
  simp [parseLit, parseJString_encStr v hv]

theorem json_dumps_application_info (n v d : List Nat) :
    json_dumps (application_info_dict (.pstr n) (.pstr v) (.pstr d)) =
      .ok (application_info_json n v d) := by
  simp [json_dumps, dumpEntryList, dumpVal, dumpEntriesJoin, application_info_dict,
    application_info_json, List.append_assoc]

theorem json_dumps_status (lv ms : List Nat) :
    json_dumps (status_dict (.pstr lv) (.pstr ms)) = .ok (status_json lv ms) := by
  simp [json_dumps, dumpEntryList, dumpVal, dumpEntriesJoin, status_dict, status_json,
    List.append_assoc]

theorem json_dumps_message (m : List Nat) :
    json_dumps (message_dict (.pstr m)) = .ok (message_json m) := by
  simp [json_dumps, dumpEntryList, dumpVal, dumpEntriesJoin, message_dict, message_json,
    List.append_assoc]

theorem parseAppInfoArg_roundtrip (n v d : List Nat)
    (hn : ValidStr n) (hv : ValidStr v) (hd : ValidStr d) :
    parseAppInfoArg (application_info_json n v d) = some (n, v, d) := by
  have hk1 : ValidStr (strCodes "name") := by decide
  have hk2 : ValidStr (strCodes "version") := by decide
  have hk3 : ValidStr (strCodes "description") := by decide
  have hshape : application_info_json n v d =
      123 :: (encStr (strCodes "name") ++ (58 :: 32 :: (encStr n ++ (44 :: 32 ::
        (encStr (strCodes "version") ++ (58 :: 32 :: (encStr v ++ (44 :: 32 ::
          (encStr (strCodes "description") ++ (58 :: 32 :: (encStr d ++ [125]))))))))))) := by
    simp [application_info_json]
  rw [parseAppInfoArg, hshape]
  simp [parseKeyVal_enc, parseLit, hk1, hk2, hk3, hn, hv, hd]

theorem parseStatusArg_roundtrip (lv ms : List Nat)
    (hlv : ValidStr lv) (hms : ValidStr ms) :
    parseStatusArg (status_json lv ms) = some (lv, ms) := by
  have hk1 : ValidStr (strCodes "level") := by decide
  have hk2 : ValidStr (strCodes "message") := by decide
  have hshape : status_json lv ms =
      123 :: (encStr (strCodes "level") ++ (58 :: 32 :: (encStr lv ++ (44 :: 32 ::
        (encStr (strCodes "message") ++ (58 :: 32 :: (encStr ms ++ [125]))))))) := by
    simp [status_json]
  rw [parseStatusArg, hshape]
  simp [parseKeyVal_enc, parseLit, hk1, hk2, hlv, hms]

theorem parseMessageArg_roundtrip (m : List Nat) (hm : ValidStr m) :
    parseMessageArg (message_json m) = some m := by
  have hk1 : ValidStr (strCodes "message") := by decide
  have hshape : message_json m =
      123 :: (encStr (strCodes "message") ++ (58 :: 32 :: (encStr m ++ [125]))) := by
    simp [message_json]
  rw [parseMessageArg, hshape]
  simp [parseKeyVal_enc, parseLit, hk1, hm]

/-! ### Claims -/

/-- C9: for any bus state, including the bus or service being unreachable,
constructing `Edgeberry()` or `EdgeberryCloudConnect()` never raises an
exception: the constructor always completes and yields an instance (the
connection error is only printed). -/
theorem c9_constructors_never_raise (env : DBusEnv) :
    (∃ o, Edgeberry_init env = .ok o) ∧
    (∃ o, EdgeberryCloudConnect_init env = .ok o) := by
  constructor
  · rcases h : Edgeberry_init_try env with i | e
    · exact ⟨(i, []), by simp [Edgeberry_init, h]⟩
    · exact ⟨(Edgeberry_partial_inst env, [edgeberry_init_log e]), by simp [Edgeberry_init, h]⟩
  · rcases h : EdgeberryCloudConnect_init_try env with i | e
    · exact ⟨(i, []), by simp [EdgeberryCloudConnect_init, h]⟩
    · exact ⟨(Edgeberry_partial_inst env, [cloudconnect_init_log e]),
        by simp [EdgeberryCloudConnect_init, h]⟩

/-- C3 counterexample: with the bus unreachable, `Edgeberry()` and
`EdgeberryCloudConnect()` complete normally, returning a partially
initialized instance and printing one line; construction does not fail
with a raised ConnectionError. -/
theorem c3_counterexample :
    Edgeberry_init envBusDown =
      .ok ({ hasBus := false, hasService := false }, [edgeberry_init_log .busErr]) ∧
    EdgeberryCloudConnect_init envBusDown =
      .ok ({ hasBus := false, hasService := false }, [cloudconnect_init_log .busErr]) :=
  ⟨rfl, rfl⟩

/-- C3 (amended): if the bus or the named service is not reachable at
construction time, the constructor catches the connection error, prints
one diagnostic line, and completes normally with an instance that has no
service handle; no exception reaches the caller. -/
theorem c3_amended_construction_catches (env : DBusEnv) :
    (env.busOk = false ∨ env.coreOk = false →
      ∃ l, Edgeberry_init env =
        .ok ({ hasBus := env.busOk, hasService := false }, [l])) ∧
    (env.busOk = false ∨ env.cloudConnectOk = false →
      ∃ l, EdgeberryCloudConnect_init env =
        .ok ({ hasBus := env.busOk, hasService := false }, [l])) := by
  constructor
  · intro h
    cases hb : env.busOk with
    | false =>
      exact ⟨edgeberry_init_log .busErr,
        by simp [Edgeberry_init, Edgeberry_init_try, Edgeberry_partial_inst, hb]⟩
    | true =>
      cases hc : env.coreOk with
      | false =>
        exact ⟨edgeberry_init_log .getErr,
          by simp [Edgeberry_init, Edgeberry_init_try, Edgeberry_partial_inst, hb, hc]⟩
      | true => rcases h with h | h <;> simp [hb, hc] at h
  · intro h
    cases hb : env.busOk with
    | false =>
      exact ⟨cloudconnect_init_log .busErr,
        by simp [EdgeberryCloudConnect_init, EdgeberryCloudConnect_init_try,
          Edgeberry_partial_inst, hb]⟩
    | true =>
      cases hc : env.cloudConnectOk with
      | false =>
        exact ⟨cloudconnect_init_log .getErr,
          by simp [EdgeberryCloudConnect_init, EdgeberryCloudConnect_init_try,
            Edgeberry_partial_inst, hb, hc]⟩
      | true => rcases h with h | h <;> simp [hb, hc] at h

/-- C3 (amended) witness at the concrete unreachable-bus environment. -/
theorem c3_amended_witness :
    (envBusDown.busOk = false ∨ envBusDown.coreOk = false) ∧
    (∃ l, Edgeberry_init envBusDown =
      .ok ({ hasBus := envBusDown.busOk, hasService := false }, [l])) ∧
    (∃ l, EdgeberryCloudConnect_init envBusDown =
      .ok ({ hasBus := envBusDown.busOk, hasService := false }, [l])) :=
  ⟨Or.inl rfl, (c3_amended_construction_catches envBusDown).1 (Or.inl rfl),
    (c3_amended_construction_catches envBusDown).2 (Or.inl rfl)⟩

/-- C4: when the remote service was unreachable at construction time (so
no service handle was obtained), every subsequent call to any public
method deterministically returns None, for all arguments; no remote
invocation is made and one diagnostic line is printed. -/
theorem c4_no_handle_returns_none (env : DBusEnv) (inst : InstState)
    (n v d lv ms m : PyVal) (h : inst.hasService = false) :
    (∃ l, set_application_info env inst n v d =
      .ok { ret := none, calls := [], log := [l] }) ∧
    (∃ l, set_status env inst lv ms = .ok { ret := none, calls := [], log := [l] }) ∧
    (∃ l, send_message env inst m = .ok { ret := none, calls := [], log := [l] }) := by
  refine ⟨?_, ?_, ?_⟩
  · rcases hd : json_dumps (application_info_dict n v d) with j | e
    · exact ⟨edgeberry_status_error_log .attrErr,
        by simp [set_application_info, set_application_info_try, hd, h]⟩
    · exact ⟨edgeberry_status_error_log e,
        by simp [set_application_info, set_application_info_try, hd, h]⟩
  · rcases hd : json_dumps (status_dict lv ms) with j | e
    · exact ⟨edgeberry_status_error_log .attrErr,
        by simp [set_status, set_status_try, hd, h]⟩
    · exact ⟨edgeberry_status_error_log e, by simp [set_status, set_status_try, hd, h]⟩
  · rcases hd : json_dumps (message_dict m) with j | e
    · exact ⟨cloudconnect_send_error_log .attrErr,
        by simp [send_message, send_message_try, hd, h]⟩
    · exact ⟨cloudconnect_send_error_log e, by simp [send_message, send_message_try, hd, h]⟩

/-- C4 witness at a concrete handle-less instance and concrete arguments. -/
theorem c4_witness :
    instNoService.hasService = false ∧
    (∃ l, set_application_info envAllOk instNoService (.pstr (strCodes "n"))
      (.pstr (strCodes "v")) (.pstr (strCodes "d")) =
      .ok { ret := none, calls := [], log := [l] }) ∧
    (∃ l, set_status envAllOk instNoService (.pstr (strCodes "ok"))
      (.pstr (strCodes "msg")) = .ok { ret := none, calls := [], log := [l] }) ∧
    (∃ l, send_message envAllOk instNoService .unserializable =
      .ok { ret := none, calls := [], log := [l] }) :=
  ⟨rfl,
    (c4_no_handle_returns_none envAllOk instNoService (.pstr (strCodes "n"))
      (.pstr (strCodes "v")) (.pstr (strCodes "d")) (.pstr (strCodes "ok"))
      (.pstr (strCodes "msg")) .unserializable rfl).1,
    (c4_no_handle_returns_none envAllOk instNoService (.pstr (strCodes "n"))
      (.pstr (strCodes "v")) (.pstr (strCodes "d")) (.pstr (strCodes "ok"))
      (.pstr (strCodes "msg")) .unserializable rfl).2.1,
    (c4_no_handle_returns_none envAllOk instNoService (.pstr (strCodes "n"))
      (.pstr (strCodes "v")) (.pstr (strCodes "d")) (.pstr (strCodes "ok"))
      (.pstr (strCodes "msg")) .unserializable rfl).2.2⟩

/-- C10: for every argument on which the JSON encoding step itself fails,
the public method catches that error, returns None, and the remote
operation is not invoked at all for that call. -/
theorem c10_encoding_failure_not_sent (env : DBusEnv) (inst : InstState)
    (n v d lv ms m : PyVal) (e1 e2 e3 : PyExc) :
    (json_dumps (application_info_dict n v d) = .exc e1 →
      set_application_info env inst n v d =
        .ok { ret := none, calls := [], log := [edgeberry_status_error_log e1] }) ∧
    (json_dumps (status_dict lv ms) = .exc e2 →
      set_status env inst lv ms =
        .ok { ret := none, calls := [], log := [edgeberry_status_error_log e2] }) ∧
    (json_dumps (message_dict m) = .exc e3 →
      send_message env inst m =
        .ok { ret := none, calls := [], log := [cloudconnect_send_error_log e3] }) := by
  refine ⟨fun h => ?_, fun h => ?_, fun h => ?_⟩
  · simp [set_application_info, set_application_info_try, h]
  · simp [set_status, set_status_try, h]
  · simp [send_message, send_message_try, h]

/-- C10 witness: an unserializable argument makes `json.dumps` raise; the
method returns None and performs no remote invocation. -/
theorem c10_witness :
    json_dumps (application_info_dict .unserializable (.pstr []) (.pstr [])) =
      .exc .typeErr ∧
    set_application_info envAllOk instOk .unserializable (.pstr []) (.pstr []) =
      .ok { ret := none, calls := [], log := [edgeberry_status_error_log .typeErr] } :=
  ⟨rfl, (c10_encoding_failure_not_sent envAllOk instOk .unserializable (.pstr []) (.pstr [])
    (.pstr []) (.pstr []) (.pstr []) .typeErr .typeErr .typeErr).1 rfl⟩

/-- C2: each public method never propagates an exception to its caller:
on any failure inside the `try` body the error is logged and the method
returns None; a remote call that legitimately returns python None gives
the caller the same None, so failure and a legitimate None result are
indistinguishable. -/
theorem c2_errors_suppressed (env : DBusEnv) (instE instC : InstState)
    (n v d lv ms m : PyVal) :
    (∃ o, set_application_info env instE n v d = .ok o) ∧
    (∃ o, set_status env instE lv ms = .ok o) ∧
    (∃ o, send_message env instC m = .ok o) ∧
    (∀ e cs, set_application_info_try env instE n v d = (.exc e, cs) →
      set_application_info env instE n v d =
        .ok { ret := none, calls := cs, log := [edgeberry_status_error_log e] }) ∧
    (∀ e cs, set_status_try env instE lv ms = (.exc e, cs) →
      set_status env instE lv ms =
        .ok { ret := none, calls := cs, log := [edgeberry_status_error_log e] }) ∧
    (∀ e cs, send_message_try env instC m = (.exc e, cs) →
      send_message env instC m =
        .ok { ret := none, calls := cs, log := [cloudconnect_send_error_log e] }) ∧
    (∀ j, json_dumps (application_info_dict n v d) = .ok j → instE.hasService = true →
      env.callCore "SetApplicationInfo" j = .ok none →
      set_application_info env instE n v d =
        .ok { ret := none, calls := [("SetApplicationInfo", j)], log := [] }) ∧
    (∀ j, json_dumps (status_dict lv ms) = .ok j → instE.hasService = true →
      env.callCore "SetApplicationStatus" j = .ok none →
      set_status env instE lv ms =
        .ok { ret := none, calls := [("SetApplicationStatus", j)], log := [] }) ∧
    (∀ j, json_dumps (message_dict m) = .ok j → instC.hasService = true →
      env.callCloudConnect "SendMessage" j = .ok none →
      send_message env instC m =
        .ok { ret := none, calls := [("SendMessage", j)], log := [] }) := by
  refine ⟨?_, ?_, ?_, ?_, ?_, ?_, ?_, ?_, ?_⟩
  · rcases h : set_application_info_try env instE n v d with ⟨r | e, cs⟩
    · exact ⟨{ ret := r, calls := cs, log := [] }, by simp [set_application_info, h]⟩
    · exact ⟨{ ret := none, calls := cs, log := [edgeberry_status_error_log e] },
        by simp [set_application_info, h]⟩
  · rcases h : set_status_try env instE lv ms with ⟨r | e, cs⟩
    · exact ⟨{ ret := r, calls := cs, log := [] }, by simp [set_status, h]⟩
    · exact ⟨{ ret := none, calls := cs, log := [edgeberry_status_error_log e] },
        by simp [set_status, h]⟩
  · rcases h : send_message_try env instC m with ⟨r | e, cs⟩
    · exact ⟨{ ret := r, calls := cs, log := [] }, by simp [send_message, h]⟩
    · exact ⟨{ ret := none, calls := cs, log := [cloudconnect_send_error_log e] },
        by simp [send_message, h]⟩
  · intro e cs h
    simp [set_application_info, h]
  · intro e cs h
    simp [set_status, h]
  · intro e cs h
    simp [send_message, h]
  · intro j hj hs hc
    simp [set_application_info, set_application_info_try, hj, hs, hc]
  · intro j hj hs hc
    simp [set_status, set_status_try, hj, hs, hc]
  · intro j hj hs hc
    simp [send_message, send_message_try, hj, hs, hc]

/-- C2 witness: at concrete inputs, a raising remote call is suppressed
into a logged None, and a remote call that returns python None gives the
indistinguishable None result. -/
theorem c2_witness :
    (∃ o, set_application_info envRemoteRaises instOk (.pstr []) (.pstr []) (.pstr []) =
      .ok o) ∧
    set_application_info envRemoteRaises instOk (.pstr []) (.pstr []) (.pstr []) =
      .ok { ret := none, calls := [("SetApplicationInfo", application_info_json [] [] [])],
            log := [edgeberry_status_error_log .remoteErr] } ∧
    set_application_info envRemoteNone instOk (.pstr []) (.pstr []) (.pstr []) =
      .ok { ret := none, calls := [("SetApplicationInfo", application_info_json [] [] [])],
            log := [] } :=
  ⟨(c2_errors_suppressed envRemoteRaises instOk instOk (.pstr []) (.pstr []) (.pstr [])
      (.pstr []) (.pstr []) (.pstr [])).1,
   (c2_errors_suppressed envRemoteRaises instOk instOk (.pstr []) (.pstr []) (.pstr [])
      (.pstr []) (.pstr []) (.pstr [])).2.2.2.1 .remoteErr
      [("SetApplicationInfo", application_info_json [] [] [])] (by decide),
   (c2_errors_suppressed envRemoteNone instOk instOk (.pstr []) (.pstr []) (.pstr [])
      (.pstr []) (.pstr []) (.pstr [])).2.2.2.2.2.2.1 (application_info_json [] [] [])
      (json_dumps_application_info [] [] []) rfl rfl⟩

/-- C5: for all string triples (including empty and non-ASCII strings),
set_application_info builds a record with exactly the keys name, version,
description holding the arguments unchanged, invokes the remote
SetApplicationInfo exactly once with the serialized string, and returns
whatever the remote call returns. -/
theorem c5_set_application_info_correct (n v d : List Nat) (env : DBusEnv)
    (inst : InstState) (r : Option Nat) (hs : inst.hasService = true)
    (hr : env.callCore "SetApplicationInfo" (application_info_json n v d) = .ok r) :
    application_info_dict (.pstr n) (.pstr v) (.pstr d) =
      [(strCodes "name", .pstr n), (strCodes "version", .pstr v),
       (strCodes "description", .pstr d)] ∧
    json_dumps (application_info_dict (.pstr n) (.pstr v) (.pstr d)) =
      .ok (application_info_json n v d) ∧
    set_application_info env inst (.pstr n) (.pstr v) (.pstr d) =
      .ok { ret := r, calls := [("SetApplicationInfo", application_info_json n v d)],
            log := [] } := by
  refine ⟨rfl, json_dumps_application_info n v d, ?_⟩
  simp [set_application_info, set_application_info_try, json_dumps_application_info,
    hs, hr]

/-- C5 witness at concrete strings against a concrete remote. -/
theorem c5_witness :
    instOk.hasService = true ∧
    envAllOk.callCore "SetApplicationInfo"
      (application_info_json (strCodes "example") (strCodes "v3.2.1") (strCodes "λ")) =
      .ok (some 0) ∧
    set_application_info envAllOk instOk (.pstr (strCodes "example"))
      (.pstr (strCodes "v3.2.1")) (.pstr (strCodes "λ")) =
      .ok { ret := some 0,
            calls := [("SetApplicationInfo",
              application_info_json (strCodes "example") (strCodes "v3.2.1")
                (strCodes "λ"))],
            log := [] } :=
  ⟨rfl, rfl, (c5_set_application_info_correct (strCodes "example") (strCodes "v3.2.1")
    (strCodes "λ") envAllOk instOk (some 0) rfl rfl).2.2⟩

/-- C6: for all string pairs, set_status builds a record with exactly the
keys level and message holding the arguments unchanged, and invokes the
remote SetApplicationStatus exactly once with the serialized string,
returning the remote result. -/
theorem c6_set_status_correct (lv ms : List Nat) (env : DBusEnv) (inst : InstState)
    (r : Option Nat) (hs : inst.hasService = true)
    (hr : env.callCore "SetApplicationStatus" (status_json lv ms) = .ok r) :
    status_dict (.pstr lv) (.pstr ms) =
      [(strCodes "level", .pstr lv), (strCodes "message", .pstr ms)] ∧
    json_dumps (status_dict (.pstr lv) (.pstr ms)) = .ok (status_json lv ms) ∧
    set_status env inst (.pstr lv) (.pstr ms) =
      .ok { ret := r, calls := [("SetApplicationStatus", status_json lv ms)],
            log := [] } := by
  refine ⟨rfl, json_dumps_status lv ms, ?_⟩
  simp [set_status, set_status_try, json_dumps_status, hs, hr]

/-- C6 witness at the concrete scenario strings. -/
theorem c6_witness :
    instOk.hasService = true ∧
    envAllOk.callCore "SetApplicationStatus"
      (status_json (strCodes "ok") (strCodes "blub")) = .ok (some 0) ∧
    set_status envAllOk instOk (.pstr (strCodes "ok")) (.pstr (strCodes "blub")) =
      .ok { ret := some 0,
            calls := [("SetApplicationStatus", status_json (strCodes "ok")
              (strCodes "blub"))],
            log := [] } :=
  ⟨rfl, rfl, (c6_set_status_correct (strCodes "ok") (strCodes "blub") envAllOk instOk
    (some 0) rfl rfl).2.2⟩

/-- C7: for all string payloads including the empty string, send_message
builds a record with exactly the key message holding the argument
unchanged, and invokes the remote SendMessage exactly once with the
serialized string, returning the remote result. -/
theorem c7_send_message_correct (m : List Nat) (env : DBusEnv) (inst : InstState)
    (r : Option Nat) (hs : inst.hasService = true)
    (hr : env.callCloudConnect "SendMessage" (message_json m) = .ok r) :
    message_dict (.pstr m) = [(strCodes "message", .pstr m)] ∧
    json_dumps (message_dict (.pstr m)) = .ok (message_json m) ∧
    send_message env inst (.pstr m) =
      .ok { ret := r, calls := [("SendMessage", message_json m)], log := [] } := by
  refine ⟨rfl, json_dumps_message m, ?_⟩
  simp [send_message, send_message_try, json_dumps_message, hs, hr]

/-- C7 witness at the empty string payload. -/
theorem c7_witness :
    instOk.hasService = true ∧
    envAllOk.callCloudConnect "SendMessage" (message_json []) = .ok (some 0) ∧
    send_message envAllOk instOk (.pstr []) =
      .ok { ret := some 0, calls := [("SendMessage", message_json [])], log := [] } :=
  ⟨rfl, rfl, (c7_send_message_correct [] envAllOk instOk (some 0) rfl rfl).2.2⟩

/-- C1 counterexample: the serialized argument of
`set_application_info("example", "v3.2.1", "Edgeberry application example")`
is not the compact string
`\x7b"name":"example","version":"v3.2.1","description":"Edgeberry application example"\x7d`:
python's `json.dumps` default separators put a space after each colon and
comma. -/
theorem c1_counterexample :
    json_dumps (application_info_dict (.pstr (strCodes "example"))
        (.pstr (strCodes "v3.2.1")) (.pstr (strCodes "Edgeberry application example"))) ≠
      .ok (strCodes "\x7b\"name\":\"example\",\"version\":\"v3.2.1\",\"description\":\"Edgeberry application example\"\x7d") := by
  decide

/-- C1 (amended): for that call the string passed as the single argument
to the remote SetApplicationInfo operation is exactly
`\x7b"name": "example", "version": "v3.2.1", "description": "Edgeberry application example"\x7d`,
with the keys in the order name, version, description and a space after
each colon and comma. -/
theorem c1_amended_argument :
    set_application_info envAllOk instOk (.pstr (strCodes "example"))
        (.pstr (strCodes "v3.2.1")) (.pstr (strCodes "Edgeberry application example")) =
      .ok { ret := some 0,
            calls := [("SetApplicationInfo",
              strCodes "\x7b\"name\": \"example\", \"version\": \"v3.2.1\", \"description\": \"Edgeberry application example\"\x7d")],
            log := [] } := by
  decide

/-- C8: for the records built by set_application_info, set_status and
send_message from arbitrary strings of Unicode scalar values — including
strings containing quote and backslash characters — the serialized
argument parses back, with a JSON-compatible parser modelled on python's
decoder, to exactly the original field values. -/
theorem c8_encode_decode_roundtrip (n v d lv ms m : List Nat)
    (hn : ValidStr n) (hv : ValidStr v) (hd : ValidStr d)
    (hlv : ValidStr lv) (hms : ValidStr ms) (hm : ValidStr m) :
    json_dumps (application_info_dict (.pstr n) (.pstr v) (.pstr d)) =
      .ok (application_info_json n v d) ∧
    parseAppInfoArg (application_info_json n v d) = some (n, v, d) ∧
    json_dumps (status_dict (.pstr lv) (.pstr ms)) = .ok (status_json lv ms) ∧
    parseStatusArg (status_json lv ms) = some (lv, ms) ∧
    json_dumps (message_dict (.pstr m)) = .ok (message_json m) ∧
    parseMessageArg (message_json m) = some m :=
  ⟨json_dumps_application_info n v d, parseAppInfoArg_roundtrip n v d hn hv hd,
   json_dumps_status lv ms, parseStatusArg_roundtrip lv ms hlv hms,
   json_dumps_message m, parseMessageArg_roundtrip m hm⟩

/-- C8 witness at concrete strings containing quotes, backslashes and
non-ASCII characters. -/
theorem c8_witness :
    ValidStr (strCodes "a\"b\\c") ∧ ValidStr (strCodes "") ∧
    ValidStr (strCodes "π𝄞\t") ∧ ValidStr (strCodes "ok") ∧
    ValidStr (strCodes "sl\\as\"h") ∧ ValidStr (strCodes "test message") ∧
    (json_dumps (application_info_dict (.pstr (strCodes "a\"b\\c"))
        (.pstr (strCodes "")) (.pstr (strCodes "π𝄞\t"))) =
      .ok (application_info_json (strCodes "a\"b\\c") (strCodes "") (strCodes "π𝄞\t")) ∧
    parseAppInfoArg (application_info_json (strCodes "a\"b\\c") (strCodes "")
        (strCodes "π𝄞\t")) =
      some (strCodes "a\"b\\c", strCodes "", strCodes "π𝄞\t") ∧
    json_dumps (status_dict (.pstr (strCodes "ok")) (.pstr (strCodes "sl\\as\"h"))) =
      .ok (status_json (strCodes "ok") (strCodes "sl\\as\"h")) ∧
    parseStatusArg (status_json (strCodes "ok") (strCodes "sl\\as\"h")) =
      some (strCodes "ok", strCodes "sl\\as\"h") ∧
    json_dumps (message_dict (.pstr (strCodes "test message"))) =
      .ok (message_json (strCodes "test message")) ∧
    parseMessageArg (message_json (strCodes "test message")) =
      some (strCodes "test message")) :=
  ⟨by decide, by decide, by decide, by decide, by decide, by decide,
   c8_encode_decode_roundtrip (strCodes "a\"b\\c") (strCodes "") (strCodes "π𝄞\t")
     (strCodes "ok") (strCodes "sl\\as\"h") (strCodes "test message")
     (by decide) (by decide) (by decide) (by decide) (by decide) (by decide)⟩
